import Mathlib

/-!
Shallow embedding of the gtm_data_lake ingestion core, translated from
`src/gtm_data_lake` (config.py, storage/storage_client.py,
ingestion/pipeline.py, ingestion/kafka_client.py, ingestion/agent_data.py,
config/kafka_config.py), together with theorems settling the frozen claims
about the natural-language specification.

Paths are modelled as strings: `pathlib.Path` with posix-style relative
segments and no empty components renders exactly as the segments joined
with a single `/`, and `Path("s3://gtm-data-lake")` normalizes the
internal double slash so that `str()` of it is `s3:/gtm-data-lake`.
Python exceptions are modelled with `Except PyErr`; storage and broker
backends are parameters so that call sequences are observable.
-/

/-- Python exception kinds that the embedded code can raise or catch. -/
inductive PyErr where
  | keyError
  | valueError
  | indexError
  | attributeError
  | jsonDecodeError
  deriving DecidableEq, Repr

/-- Zero-pad a natural number to two digits, as Python `f"{n:02d}"` and
`strftime` two-digit fields do for `n < 100`. -/
def pad2 (n : Nat) : String :=
  if n < 10 then "0" ++ toString n else toString n

/-- Zero-pad a natural number to four digits, as `strftime("%Y")` renders
the year for `1 ≤ n ≤ 9999`. -/
def pad4 (n : Nat) : String :=
  if n < 10 then "000" ++ toString n
  else if n < 100 then "00" ++ toString n
  else if n < 1000 then "0" ++ toString n
  else toString n

/-- Whether `needle` occurs as a contiguous substring of the character
list. -/
def listContainsSub (needle : List Char) : List Char → Bool
  | [] => needle.isEmpty
  | c :: t => needle.isPrefixOf (c :: t) || listContainsSub needle t

/-- Whether `needle` occurs as a contiguous substring of `hay`. -/
def strContainsSub (hay needle : String) : Bool :=
  listContainsSub needle.toList hay.toList

/-- A parsed `datetime.datetime` value (no fractional seconds or
timezone, which the ingestion paths never supply). -/
structure Datetime where
  year : Nat
  month : Nat
  day : Nat
  hour : Nat
  minute : Nat
  second : Nat
  deriving DecidableEq, Repr

/-- Gregorian leap-year rule used by `datetime` for day-of-month
validation. -/
def isLeapYear (y : Nat) : Bool :=
  (y % 4 == 0 && y % 100 != 0) || y % 400 == 0

/-- Number of days in a month, as `datetime` validates it. -/
def daysInMonth (y m : Nat) : Nat :=
  if m == 2 then (if isLeapYear y then 29 else 28)
  else if m == 4 || m == 6 || m == 9 || m == 11 then 30
  else 31

/-- Value of a decimal digit character, `none` for a non-digit. -/
def digitVal (c : Char) : Option Nat :=
  if c.isDigit then some (c.toNat - 48) else none

/-- Parse exactly two decimal digits. -/
def parse2 (a b : Char) : Option Nat := do
  let x ← digitVal a
  let y ← digitVal b
  pure (10 * x + y)

/-- Parse exactly four decimal digits. -/
def parse4 (a b c d : Char) : Option Nat := do
  let x ← parse2 a b
  let y ← parse2 c d
  pure (100 * x + y)

/-- Range validation performed by the `datetime` constructor: year in
1..9999, month in 1..12, day within the month, time fields in range. -/
def mkDatetime (y mo d h mi s : Nat) : Option Datetime :=
  if 1 ≤ y && y ≤ 9999 && 1 ≤ mo && mo ≤ 12 && 1 ≤ d && d ≤ daysInMonth y mo
      && h < 24 && mi < 60 && s < 60 then
    some ⟨y, mo, d, h, mi, s⟩
  else
    none

/-- `datetime.fromisoformat` on the forms the ingestion code feeds it:
`YYYY-MM-DD`, optionally followed by a single separator character and
`HH`, `HH:MM` or `HH:MM:SS`. Returns `none` where Python raises
`ValueError`. -/
def fromisoformat (str : String) : Option Datetime :=
  match str.toList with
  | [y1, y2, y3, y4, '-', m1, m2, '-', d1, d2] => do
      let y ← parse4 y1 y2 y3 y4
      let mo ← parse2 m1 m2
      let d ← parse2 d1 d2
      mkDatetime y mo d 0 0 0
  | [y1, y2, y3, y4, '-', m1, m2, '-', d1, d2, _, h1, h2] => do
      let y ← parse4 y1 y2 y3 y4
      let mo ← parse2 m1 m2
      let d ← parse2 d1 d2
      let h ← parse2 h1 h2
      mkDatetime y mo d h 0 0
  | [y1, y2, y3, y4, '-', m1, m2, '-', d1, d2, _, h1, h2, ':', n1, n2] => do
      let y ← parse4 y1 y2 y3 y4
      let mo ← parse2 m1 m2
      let d ← parse2 d1 d2
      let h ← parse2 h1 h2
      let mi ← parse2 n1 n2
      mkDatetime y mo d h mi 0
  | [y1, y2, y3, y4, '-', m1, m2, '-', d1, d2, _, h1, h2, ':', n1, n2, ':',
      s1, s2] => do
      let y ← parse4 y1 y2 y3 y4
      let mo ← parse2 m1 m2
      let d ← parse2 d1 d2
      let h ← parse2 h1 h2
      let mi ← parse2 n1 n2
      let s ← parse2 s1 s2
      mkDatetime y mo d h mi s
  | _ => none

/-- `timestamp.strftime("%Y%m%d_%H%M%S")`. -/
def strftimeCompact (t : Datetime) : String :=
  pad4 t.year ++ pad2 t.month ++ pad2 t.day ++ "_"
    ++ pad2 t.hour ++ pad2 t.minute ++ pad2 t.second

namespace DataLakeConfig

/-- `str(Path("s3://gtm-data-lake"))`: pathlib collapses the interior
double slash. -/
def BASE_PATH : String := "s3:/gtm-data-lake"

def BRONZE_PATH : String := BASE_PATH ++ "/bronze"

def SILVER_PATH : String := BASE_PATH ++ "/silver"

def GOLD_PATH : String := BASE_PATH ++ "/gold"

/-- The three storage layers whose `{LAYER}_PATH` class attributes
`get_storage_path` resolves via `getattr`. -/
inductive Layer where
  | bronze
  | silver
  | gold
  deriving DecidableEq, Repr

/-- `getattr(cls, f"{layer.upper()}_PATH")`. -/
def layerPath : Layer → String
  | .bronze => BRONZE_PATH
  | .silver => SILVER_PATH
  | .gold => GOLD_PATH

/-- `DataLakeConfig.get_storage_path`: note the unpadded
`month={month}/day={day}` f-string segments. -/
def get_storage_path (layer : Layer) (data_type : String)
    (year month day : Nat) : String :=
  layerPath layer ++ "/" ++ data_type ++ "/year=" ++ toString year
    ++ "/month=" ++ toString month ++ "/day=" ++ toString day

/-- `DataLakeConfig.get_conversation_path`. -/
def get_conversation_path (year month day : Nat) : String :=
  get_storage_path .bronze "conversations" year month day

/-- `DataLakeConfig.get_email_path`. -/
def get_email_path (year month day : Nat) : String :=
  get_storage_path .bronze "emails" year month day

/-- `DataLakeConfig.get_product_usage_path`. -/
def get_product_usage_path (year month day : Nat) : String :=
  get_storage_path .bronze "product_usage" year month day

/-- `DataLakeConfig.get_calendar_path`: zero-padded month and day but no
`year=`/`month=`/`day=` labels. -/
def get_calendar_path (year month day : Nat) : String :=
  BRONZE_PATH ++ "/calendar_events/" ++ toString year ++ "/"
    ++ pad2 month ++ "/" ++ pad2 day

/-- `DataLakeConfig.get_agent_path`. -/
def get_agent_path (agent_type : String) (year month day : Nat) : String :=
  BRONZE_PATH ++ "/agent_data/" ++ agent_type ++ "/" ++ toString year ++ "/"
    ++ pad2 month ++ "/" ++ pad2 day

/-- `DataLakeConfig.KAFKA_TOPICS`, in the source's insertion order. -/
def KAFKA_TOPICS : List (String × String) :=
  [("conversations", "gtm.conversations"),
   ("emails", "gtm.emails"),
   ("product_usage", "gtm.product_usage"),
   ("calendar_events", "gtm.calendar_events"),
   ("agent_data", "gtm.agent_data")]

end DataLakeConfig

/-- Fields of an incoming conversation dict that the ingestion code
touches; `Option` records dict-key presence. -/
structure ConversationData where
  conversation_id : Option String
  timestamp : Option String
  raw_transcript : Option String
  deriving DecidableEq, Repr

/-- Fields of one element of an email thread's `emails` list that the
ingestion code touches. -/
structure Email where
  timestamp : Option String
  deriving DecidableEq, Repr

/-- Fields of an incoming email-thread dict that the ingestion code
touches. -/
structure EmailThreadData where
  thread_id : Option String
  emails : Option (List Email)
  deriving DecidableEq, Repr

/-- Fields of an incoming product-usage dict that the ingestion code
touches. -/
structure ProductUsageData where
  session_id : Option String
  timestamp : Option String
  events : Option (List String)
  deriving DecidableEq, Repr

namespace StorageClient

/-- `StorageClient.store_json`, parametrized by the S3 backend outcome
`putOk` (`false` models a `ClientError`, caught inside `store_json` and
turned into a `False` return). The list records the attempted
storage-client write keys. -/
def store_json (putOk : String → Bool) (path : String) : Bool × List String :=
  (putOk path, [path])

/-- `StorageClient.store_conversation`: absent dict keys raise
`KeyError` and a bad timestamp raises `ValueError`, both escaping to the
caller; both occur before any write. -/
def store_conversation (putOk : String → Bool) (data : ConversationData) :
    Except PyErr (Bool × List String) :=
  match data.timestamp with
  | none => .error .keyError
  | some ts =>
    match fromisoformat ts with
    | none => .error .valueError
    | some t =>
      match data.conversation_id with
      | none => .error .keyError
      | some cid =>
        let path := DataLakeConfig.get_conversation_path t.year t.month t.day
          ++ "/call_" ++ strftimeCompact t ++ "_" ++ cid ++ ".json"
        .ok (store_json putOk path)

/-- `StorageClient.store_email_thread`: indexes `emails[0]` (raising
`IndexError` on an empty list) and parses its timestamp before building
the key. -/
def store_email_thread (putOk : String → Bool) (data : EmailThreadData) :
    Except PyErr (Bool × List String) :=
  match data.emails with
  | none => .error .keyError
  | some [] => .error .indexError
  | some (e0 :: _) =>
    match e0.timestamp with
    | none => .error .keyError
    | some ts =>
      match fromisoformat ts with
      | none => .error .valueError
      | some t =>
        match data.thread_id with
        | none => .error .keyError
        | some tid =>
          let path := DataLakeConfig.get_email_path t.year t.month t.day
            ++ "/email_thread_" ++ tid ++ ".json"
          .ok (store_json putOk path)

/-- `StorageClient.store_product_usage`. -/
def store_product_usage (putOk : String → Bool) (data : ProductUsageData) :
    Except PyErr (Bool × List String) :=
  match data.timestamp with
  | none => .error .keyError
  | some ts =>
    match fromisoformat ts with
    | none => .error .valueError
    | some t =>
      match data.session_id with
      | none => .error .keyError
      | some sid =>
        let path :=
          DataLakeConfig.get_product_usage_path t.year t.month t.day
            ++ "/user_events_" ++ sid ++ ".json"
        .ok (store_json putOk path)

end StorageClient

namespace DataIngestionPipeline

/-- `DataIngestionPipeline.process_conversation`: required-field
validation, then the store call; the surrounding `try/except` converts
any exception to `False`. The list records storage-client write calls. -/
def process_conversation (putOk : String → Bool) (data : ConversationData) :
    Bool × List String :=
  if data.conversation_id.isSome && data.timestamp.isSome
      && data.raw_transcript.isSome then
    match StorageClient.store_conversation putOk data with
    | .error _ => (false, [])
    | .ok (success, writes) => (success, writes)
  else
    (false, [])

/-- `DataIngestionPipeline.process_email_thread`. -/
def process_email_thread (putOk : String → Bool) (data : EmailThreadData) :
    Bool × List String :=
  if data.thread_id.isSome && data.emails.isSome then
    match StorageClient.store_email_thread putOk data with
    | .error _ => (false, [])
    | .ok (success, writes) => (success, writes)
  else
    (false, [])

/-- `DataIngestionPipeline.process_product_usage`. -/
def process_product_usage (putOk : String → Bool) (data : ProductUsageData) :
    Bool × List String :=
  if data.session_id.isSome && data.timestamp.isSome
      && data.events.isSome then
    match StorageClient.store_product_usage putOk data with
    | .error _ => (false, [])
    | .ok (success, writes) => (success, writes)
  else
    (false, [])

/-- `DataIngestionPipeline.ingest_conversation` delegates to
`process_conversation`. -/
def ingest_conversation (putOk : String → Bool) (data : ConversationData) :
    Bool × List String :=
  process_conversation putOk data

/-- `DataIngestionPipeline.ingest_email_thread`. -/
def ingest_email_thread (putOk : String → Bool) (data : EmailThreadData) :
    Bool × List String :=
  process_email_thread putOk data

/-- `DataIngestionPipeline.ingest_product_usage`. -/
def ingest_product_usage (putOk : String → Bool) (data : ProductUsageData) :
    Bool × List String :=
  process_product_usage putOk data

/-- The type-specific handlers `_consume_messages` submits to the worker
pool. -/
inductive Handler where
  | processConversation
  | processEmailThread
  | processProductUsage
  deriving DecidableEq, Repr

/-- The `if/elif` dispatch in `DataIngestionPipeline._consume_messages`
on the pipeline's topic key: `none` means a received message falls
through the chain and is discarded without dispatch. -/
def consumeDispatch (topic_name : String) : Option Handler :=
  if topic_name = "conversations" then some .processConversation
  else if topic_name = "emails" then some .processEmailThread
  else if topic_name = "product_usage" then some .processProductUsage
  else none

/-- Observable state of a `DataIngestionPipeline`: the `running` flag,
the `consumers` dict (topic key ↦ identity of its `KafkaConsumer`
object), the identities of spawned consumer threads, and a counter
supplying fresh object identities. -/
structure PipelineState where
  running : Bool
  consumers : List (String × Nat)
  threads : List Nat
  nextId : Nat
  deriving DecidableEq, Repr

/-- Python dict update `self.consumers[topic_name] = consumer`. -/
def assocSet (m : List (String × Nat)) (k : String) (v : Nat) :
    List (String × Nat) :=
  match m with
  | [] => [(k, v)]
  | (k0, v0) :: t => if k0 = k then (k, v) :: t else (k0, v0) :: assocSet t k v

/-- One iteration of the loop in `start`: construct a fresh
`KafkaConsumer`, store it in the dict, spawn a fresh consumer thread. -/
def startStep (s : PipelineState) (topic_name : String) : PipelineState :=
  { running := s.running,
    consumers := assocSet s.consumers topic_name s.nextId,
    threads := s.threads ++ [s.nextId + 1],
    nextId := s.nextId + 2 }

/-- `DataIngestionPipeline.start`: sets `running := True` and then,
without any already-running guard, creates a consumer and spawns a
thread for every configured topic. -/
def start (s : PipelineState) : PipelineState :=
  DataLakeConfig.KAFKA_TOPICS.foldl (fun acc p => startStep acc p.1)
    { s with running := true }

/-- Pipeline state after `DataIngestionPipeline.__init__`. -/
def initState : PipelineState :=
  { running := false, consumers := [], threads := [], nextId := 0 }

end DataIngestionPipeline

namespace KafkaConfig

/-- `KafkaConfig.TOPICS` (keys and physical names): only three topic
types are configured here, unlike `DataLakeConfig.KAFKA_TOPICS`. -/
def TOPICS : List (String × String) :=
  [("conversations", "gtm.conversations"),
   ("emails", "gtm.emails"),
   ("product_usage", "gtm.product_usage")]

/-- `KafkaConfig.get_topic_name`: raises `ValueError` for a topic type
absent from `TOPICS`. -/
def get_topic_name (topic_type : String) : Except PyErr String :=
  match TOPICS.lookup topic_type with
  | some n => .ok n
  | none => .error .valueError

end KafkaConfig

namespace KafkaProducerClient

/-- Broker-side outcome of the `producer.send` / `producer.flush` pair
inside `send_message`. -/
inductive SendOutcome where
  | sendRaisesKafkaError
  | flushRaisesKafkaError
  | acked
  deriving DecidableEq, Repr

/-- `KafkaProducerClient.send_message`: the `except` clause catches only
`KafkaError`, so the `ValueError` from `get_topic_name` escapes
(`Except.error`). On success the pair records the returned boolean and
whether `producer.flush()` ran to completion before the return. -/
def send_message (outcome : SendOutcome) (topic_type : String) :
    Except PyErr (Bool × Bool) :=
  match KafkaConfig.get_topic_name topic_type with
  | .error e => .error e
  | .ok _topic =>
    match outcome with
    | .sendRaisesKafkaError => .ok (false, false)
    | .flushRaisesKafkaError => .ok (false, false)
    | .acked => .ok (true, true)

end KafkaProducerClient

/-- The double-quote character that delimits JSON strings. -/
def jsonQuote : Char := Char.ofNat 34

/-- The opening curly brace of a JSON object. -/
def braceOpen : Char := Char.ofNat 123

/-- The closing curly brace of a JSON object. -/
def braceClose : Char := Char.ofNat 125

/-- JSON values as `json.loads` produces them; a number keeps its source
token, whose numeric interpretation no claim depends on. -/
inductive Json where
  | null
  | bool (b : Bool)
  | num (raw : String)
  | str (s : String)
  | arr (elems : List Json)
  | obj (members : List (String × Json))

/-- Skip JSON whitespace. -/
def jsonSkipWs : List Char → List Char
  | c :: t =>
    if c = ' ' || c = '\t' || c = '\n' || c = '\r' then jsonSkipWs t
    else c :: t
  | [] => []

/-- Value of a hexadecimal digit character. -/
def hexVal (c : Char) : Option Nat :=
  if c.isDigit then some (c.toNat - 48)
  else if 97 ≤ c.toNat && c.toNat ≤ 102 then some (c.toNat - 87)
  else if 65 ≤ c.toNat && c.toNat ≤ 70 then some (c.toNat - 55)
  else none

/-- Decoding of a single-character JSON escape. -/
def jsonEscapeChar (e : Char) : Option Char :=
  if e = jsonQuote then some jsonQuote
  else if e = '\\' then some '\\'
  else if e = '/' then some '/'
  else if e = 'b' then some (Char.ofNat 8)
  else if e = 'f' then some (Char.ofNat 12)
  else if e = 'n' then some '\n'
  else if e = 'r' then some '\r'
  else if e = 't' then some '\t'
  else none

/-- Parse the body of a JSON string (after its opening quote) up to its
closing quote, decoding escapes; raw control characters are rejected, as
`json.loads` does in strict mode. Surrogate pairing of `\uXXXX` escapes
is not modelled. -/
def jsonParseStr : List Char → Option (List Char × List Char)
  | [] => none
  | c :: t =>
    if c = jsonQuote then some ([], t)
    else if c = '\\' then
      match t with
      | 'u' :: a :: b :: c2 :: d :: t2 => do
          let ha ← hexVal a
          let hb ← hexVal b
          let hc ← hexVal c2
          let hd ← hexVal d
          let (s, r) ← jsonParseStr t2
          pure (Char.ofNat (4096 * ha + 256 * hb + 16 * hc + hd) :: s, r)
      | e :: t2 => do
          let ch ← jsonEscapeChar e
          let (s, r) ← jsonParseStr t2
          pure (ch :: s, r)
      | [] => none
    else if c.toNat < 32 then none
    else (jsonParseStr t).map (fun p => (c :: p.1, p.2))

/-- Split leading decimal digits from the rest. -/
def takeDigits : List Char → List Char × List Char
  | c :: t =>
    if c.isDigit then
      let (ds, r) := takeDigits t
      (c :: ds, r)
    else ([], c :: t)
  | [] => ([], [])

/-- Parse a JSON number token, returning its source characters; the
grammar is `-? (0 | [1-9][0-9]*) (\.[0-9]+)? ([eE][-+]?[0-9]+)?`. -/
def jsonParseNum (cs : List Char) : Option (List Char × List Char) := do
  let (sign, cs1) :=
    match cs with
    | '-' :: t => (['-'], t)
    | _ => ([], cs)
  let (ipart, cs2) ←
    match cs1 with
    | '0' :: t => some (['0'], t)
    | c :: t =>
      if c.isDigit then
        let (ds, r) := takeDigits t
        some (c :: ds, r)
      else none
    | [] => none
  let (fpart, cs3) ←
    match cs2 with
    | '.' :: t =>
      let (ds, r) := takeDigits t
      if ds.isEmpty then none else some ('.' :: ds, r)
    | _ => some (([] : List Char), cs2)
  let (epart, cs4) ←
    match cs3 with
    | c :: t =>
      if c = 'e' || c = 'E' then
        let (sgn, t2) :=
          match t with
          | '+' :: t3 => (['+'], t3)
          | '-' :: t3 => (['-'], t3)
          | _ => (([] : List Char), t)
        let (ds, r) := takeDigits t2
        if ds.isEmpty then none else some (c :: (sgn ++ ds), r)
      else some (([] : List Char), c :: t)
    | [] => some (([] : List Char), ([] : List Char))
  pure (sign ++ ipart ++ fpart ++ epart, cs4)

mutual

/-- Parse a JSON value; the fuel only bounds recursion depth and
`jsonParse` supplies more than any input can consume. -/
def jsonParseVal : Nat → List Char → Option (Json × List Char)
  | 0, _ => none
  | fuel + 1, cs =>
    match jsonSkipWs cs with
    | 'n' :: 'u' :: 'l' :: 'l' :: rest => some (.null, rest)
    | 't' :: 'r' :: 'u' :: 'e' :: rest => some (.bool true, rest)
    | 'f' :: 'a' :: 'l' :: 's' :: 'e' :: rest => some (.bool false, rest)
    | c :: rest =>
      if c = jsonQuote then
        (jsonParseStr rest).map (fun p => (.str (String.mk p.1), p.2))
      else if c = '[' then
        match jsonSkipWs rest with
        | c2 :: r =>
          if c2 = ']' then some (.arr [], r)
          else (jsonParseElems fuel rest).map (fun p => (.arr p.1, p.2))
        | [] => none
      else if c = braceOpen then
        match jsonSkipWs rest with
        | c2 :: r =>
          if c2 = braceClose then some (.obj [], r)
          else (jsonParseMembers fuel rest).map (fun p => (.obj p.1, p.2))
        | [] => none
      else
        (jsonParseNum (c :: rest)).map (fun p => (.num (String.mk p.1), p.2))
    | [] => none

/-- Parse the elements of a non-empty JSON array up to its closing
bracket. -/
def jsonParseElems : Nat → List Char → Option (List Json × List Char)
  | 0, _ => none
  | fuel + 1, cs =>
    match jsonParseVal fuel cs with
    | none => none
    | some (v, r1) =>
      match jsonSkipWs r1 with
      | ',' :: r2 =>
        (jsonParseElems fuel r2).map (fun p => (v :: p.1, p.2))
      | ']' :: r2 => some ([v], r2)
      | _ => none

/-- Parse the members of a non-empty JSON object up to its closing
brace. -/
def jsonParseMembers :
    Nat → List Char → Option (List (String × Json) × List Char)
  | 0, _ => none
  | fuel + 1, cs =>
    match jsonSkipWs cs with
    | c :: r0 =>
      if c = jsonQuote then
        match jsonParseStr r0 with
        | none => none
        | some (k, r1) =>
          match jsonSkipWs r1 with
          | ':' :: r2 =>
            match jsonParseVal fuel r2 with
            | none => none
            | some (v, r3) =>
              match jsonSkipWs r3 with
              | ',' :: r4 =>
                (jsonParseMembers fuel r4).map
                  (fun p => ((String.mk k, v) :: p.1, p.2))
              | c2 :: r4 =>
                if c2 = braceClose then some ([(String.mk k, v)], r4)
                else none
              | [] => none
          | _ => none
      else none
    | [] => none

end

/-- `json.loads`: parse a complete JSON document, rejecting trailing
data; `none` models a `json.JSONDecodeError`. -/
def jsonParse (s : String) : Option Json :=
  match jsonParseVal (2 * s.length + 2) s.toList with
  | some (j, rest) => if (jsonSkipWs rest).isEmpty then some j else none
  | none => none

/-- Outcome of the S3 `get_object` call inside `read_json`: a
`ClientError` (covering a missing key and every other client failure) or
the stored object's bytes. -/
inductive GetOutcome where
  | clientError
  | body (bytes : String)

/-- `StorageClient.read_json`: only `ClientError` is caught (returning
`None`); a `json.JSONDecodeError` on unparsable bytes escapes as an
exception. -/
def read_json (outcome : GetOutcome) : Except PyErr (Option Json) :=
  match outcome with
  | .clientError => .ok none
  | .body s =>
    match jsonParse s with
    | some j => .ok (some j)
    | none => .error .jsonDecodeError

namespace AgentDataProcessor

/-- The keys of `self.agent_handlers` set up in
`AgentDataProcessor.__init__`. -/
def agentHandlerKeys : List String :=
  ["lead_qualification", "account_intelligence", "sales_process",
   "sentiment_analysis", "product_intelligence", "follow_up",
   "marketing_intelligence", "forecast", "outcome_analysis"]

/-- The field of an incoming agent-data dict that the dispatch in
`process_agent_data` reads (`data.get("agent_type")`). -/
structure AgentRecord where
  agent_type : Option String
  deriving DecidableEq, Repr

/-- `AgentDataProcessor.process_agent_data`, parametrized by the outcome
of the `self.storage_client.store_agent_data` call (an `Except`, since
an exception there — e.g. the `AttributeError` raised because the repo's
`StorageClient` has no such method — is converted to `False` by the
outer `except`). The `Nat` counts storage-client calls; the per-type
handler itself never raises (its own `except` returns the input dict
unchanged). -/
def process_agent_data (store : Except PyErr Bool) (data : AgentRecord) :
    Bool × Nat :=
  match data.agent_type with
  | none => (false, 0)
  | some t =>
    if agentHandlerKeys.contains t then
      match store with
      | .error _ => (false, 1)
      | .ok b => (b, 1)
    else
      (false, 0)

end AgentDataProcessor

/-- C1: the claim says every partition path carries zero-padded
two-digit month and day segments, and in particular contains
`year=2024/month=03/day=05` for 2024-03-05. Evaluating the code at that
date: `get_storage_path` emits unpadded `month=3/day=5` and
`get_calendar_path` emits `2024/03/05` with no `year=`/`month=`/`day=`
labels, so neither produced path contains the claimed segment. -/
theorem c1_padding_code_eval :
    DataLakeConfig.get_storage_path .bronze "conversations" 2024 3 5
        = "s3:/gtm-data-lake/bronze/conversations/year=2024/month=3/day=5"
    ∧ strContainsSub
        (DataLakeConfig.get_storage_path .bronze "conversations" 2024 3 5)
        "year=2024/month=03/day=05" = false
    ∧ DataLakeConfig.get_calendar_path 2024 3 5
        = "s3:/gtm-data-lake/bronze/calendar_events/2024/03/05"
    ∧ strContainsSub (DataLakeConfig.get_calendar_path 2024 3 5)
        "year=2024/month=03/day=05" = false := by
  exact ⟨rfl, by decide, rfl, by decide⟩

/-- C2: for thread t1 whose first email has timestamp
2024-01-10T09:00:00, `store_email_thread` does compute the key from the
first email's timestamp, but the key it produces is
`s3:/gtm-data-lake/bronze/emails/year=2024/month=1/day=10/email_thread_t1.json`
— the bucket URL is baked into the key and the month segment is
unpadded — not the claimed
`bronze/emails/year=2024/month=01/day=10/email_thread_t1.json`. -/
theorem c2_email_key_code_eval :
    StorageClient.store_email_thread (fun _ => true)
        { thread_id := some "t1",
          emails := some [{ timestamp := some "2024-01-10T09:00:00" },
                          { timestamp := some "2024-01-10T10:00:00" }] }
      = .ok (true,
        ["s3:/gtm-data-lake/bronze/emails/year=2024/month=1/day=10/email_thread_t1.json"])
    ∧ ("s3:/gtm-data-lake/bronze/emails/year=2024/month=1/day=10/email_thread_t1.json"
        ≠ "bronze/emails/year=2024/month=01/day=10/email_thread_t1.json")
    ∧ strContainsSub
        "s3:/gtm-data-lake/bronze/emails/year=2024/month=1/day=10/email_thread_t1.json"
        "month=01" = false := by
  exact ⟨rfl, by decide, by decide⟩

/-- C3: for each of the three direct-ingest entry points, an input
missing at least one required field yields `False` and an empty list of
storage-client write calls. -/
theorem c3_missing_fields_reject :
    (∀ (putOk : String → Bool) (c : ConversationData),
        ¬(c.conversation_id.isSome = true ∧ c.timestamp.isSome = true
            ∧ c.raw_transcript.isSome = true) →
        DataIngestionPipeline.ingest_conversation putOk c = (false, []))
    ∧ (∀ (putOk : String → Bool) (e : EmailThreadData),
        ¬(e.thread_id.isSome = true ∧ e.emails.isSome = true) →
        DataIngestionPipeline.ingest_email_thread putOk e = (false, []))
    ∧ (∀ (putOk : String → Bool) (u : ProductUsageData),
        ¬(u.session_id.isSome = true ∧ u.timestamp.isSome = true
            ∧ u.events.isSome = true) →
        DataIngestionPipeline.ingest_product_usage putOk u = (false, [])) := by
  refine ⟨?_, ?_, ?_⟩
  · intro putOk c h
    have hcond : ¬((c.conversation_id.isSome && c.timestamp.isSome
        && c.raw_transcript.isSome) = true) := by
      simp only [Bool.and_eq_true]
      exact fun hc => h ⟨hc.1.1, hc.1.2, hc.2⟩
    unfold DataIngestionPipeline.ingest_conversation
      DataIngestionPipeline.process_conversation
    rw [if_neg hcond]
  · intro putOk e h
    have hcond : ¬((e.thread_id.isSome && e.emails.isSome) = true) := by
      simp only [Bool.and_eq_true]
      exact fun hc => h ⟨hc.1, hc.2⟩
    unfold DataIngestionPipeline.ingest_email_thread
      DataIngestionPipeline.process_email_thread
    rw [if_neg hcond]
  · intro putOk u h
    have hcond : ¬((u.session_id.isSome && u.timestamp.isSome
        && u.events.isSome) = true) := by
      simp only [Bool.and_eq_true]
      exact fun hc => h ⟨hc.1.1, hc.1.2, hc.2⟩
    unfold DataIngestionPipeline.ingest_product_usage
      DataIngestionPipeline.process_product_usage
    rw [if_neg hcond]

/-- Witness for C3 at concrete inputs, one per record type. -/
theorem c3_missing_fields_reject_witness :
    DataIngestionPipeline.ingest_conversation (fun _ => true)
        { conversation_id := some "c1",
          timestamp := some "2024-03-05T10:00:00",
          raw_transcript := none } = (false, [])
    ∧ DataIngestionPipeline.ingest_email_thread (fun _ => true)
        { thread_id := some "t1", emails := none } = (false, [])
    ∧ DataIngestionPipeline.ingest_product_usage (fun _ => true)
        { session_id := none, timestamp := some "2024-03-05T10:00:00",
          events := some [] } = (false, []) :=
  ⟨c3_missing_fields_reject.1 _ _ (by decide),
   c3_missing_fields_reject.2.1 _ _ (by decide),
   c3_missing_fields_reject.2.2 _ _ (by decide)⟩

/-- C4 counterexample: calendar_events is one of the five subscribed
pipeline topics, yet the consumer loop's dispatch has no branch for it,
so its received messages are discarded without dispatch — not every
subscribed topic's messages reach a type-specific handler. -/
theorem c4_dispatch_counterexample :
    ("calendar_events", "gtm.calendar_events") ∈ DataLakeConfig.KAFKA_TOPICS
    ∧ DataIngestionPipeline.consumeDispatch "calendar_events" = none := by
  exact ⟨by decide, by decide⟩

/-- C4 amended: of the five subscribed topics, only conversations,
emails and product_usage messages are submitted to their type-specific
processing handlers; calendar_events and agent_data messages are
received and discarded without dispatch. -/
theorem c4_dispatch_amended :
    DataIngestionPipeline.consumeDispatch "conversations"
        = some .processConversation
    ∧ DataIngestionPipeline.consumeDispatch "emails"
        = some .processEmailThread
    ∧ DataIngestionPipeline.consumeDispatch "product_usage"
        = some .processProductUsage
    ∧ DataIngestionPipeline.consumeDispatch "calendar_events" = none
    ∧ DataIngestionPipeline.consumeDispatch "agent_data" = none
    ∧ DataLakeConfig.KAFKA_TOPICS.map Prod.fst
        = ["conversations", "emails", "product_usage", "calendar_events",
           "agent_data"] := by
  refine ⟨by decide, by decide, by decide, by decide, by decide, by decide⟩

/-- C5 counterexample: after one `start()` the pipeline is running, and
a second `start()` changes both the consumer threads and the consumers
dict — it is not a no-op. -/
theorem c5_start_counterexample :
    (DataIngestionPipeline.start DataIngestionPipeline.initState).running
        = true
    ∧ (DataIngestionPipeline.start
          (DataIngestionPipeline.start DataIngestionPipeline.initState)).threads
        ≠ (DataIngestionPipeline.start DataIngestionPipeline.initState).threads
    ∧ (DataIngestionPipeline.start
          (DataIngestionPipeline.start
            DataIngestionPipeline.initState)).consumers
        ≠ (DataIngestionPipeline.start
            DataIngestionPipeline.initState).consumers := by
  exact ⟨by decide, by decide, by decide⟩

/-- C5 amended: `start()` on any pipeline state — already running or not
— sets the running flag and spawns one new consumer thread per
configured topic, growing the thread set by five. -/
theorem c5_start_amended (s : DataIngestionPipeline.PipelineState) :
    (DataIngestionPipeline.start s).running = true
    ∧ (DataIngestionPipeline.start s).threads.length
        = s.threads.length + 5 := by
  constructor
  · simp [DataIngestionPipeline.start, DataLakeConfig.KAFKA_TOPICS,
      DataIngestionPipeline.startStep]
  · simp [DataIngestionPipeline.start, DataLakeConfig.KAFKA_TOPICS,
      DataIngestionPipeline.startStep]

/-- C6 counterexample: "calendar_events" is one of the pipeline's
configured topic types, yet it is absent from KafkaConfig.TOPICS, so
`send_message` raises an uncaught ValueError on it — a publish failure
on which the method does not return False. -/
theorem c6_send_message_counterexample :
    ("calendar_events", "gtm.calendar_events") ∈ DataLakeConfig.KAFKA_TOPICS
    ∧ KafkaProducerClient.send_message .acked "calendar_events"
        = .error .valueError := by
  exact ⟨by decide, rfl⟩

/-- C6 amended: for topic types configured in KafkaConfig.TOPICS,
`send_message` flushes before returning and returns True exactly when
the flush completed with the broker's acknowledgment, False when the
send or flush raised a KafkaError; for a topic type absent from
KafkaConfig.TOPICS it raises ValueError instead of returning False. -/
theorem c6_send_message_amended (tt : String)
    (o : KafkaProducerClient.SendOutcome) :
    ((KafkaConfig.TOPICS.lookup tt).isSome = true →
        (KafkaProducerClient.send_message o tt = .ok (true, true) ↔ o = .acked)
        ∧ (o ≠ .acked →
            KafkaProducerClient.send_message o tt = .ok (false, false)))
    ∧ (KafkaConfig.TOPICS.lookup tt = none →
        KafkaProducerClient.send_message o tt = .error .valueError) := by
  constructor
  · intro h
    match hl : KafkaConfig.TOPICS.lookup tt with
    | none => rw [hl] at h; simp at h
    | some n =>
      cases o <;>
        simp [KafkaProducerClient.send_message, KafkaConfig.get_topic_name, hl]
  · intro h
    simp [KafkaProducerClient.send_message, KafkaConfig.get_topic_name, h]

/-- Witness for C6 at a configured and an unconfigured topic type. -/
theorem c6_send_message_amended_witness :
    KafkaProducerClient.send_message .acked "conversations" = .ok (true, true)
    ∧ KafkaProducerClient.send_message .sendRaisesKafkaError "conversations"
        = .ok (false, false)
    ∧ KafkaProducerClient.send_message .acked "calendar_events"
        = .error .valueError :=
  ⟨((c6_send_message_amended "conversations" .acked).1 (by decide)).1.mpr rfl,
   ((c6_send_message_amended "conversations" .sendRaisesKafkaError).1
      (by decide)).2 (by decide),
   (c6_send_message_amended "calendar_events" .acked).2 (by decide)⟩

/-- C7 counterexample: on stored bytes that do not parse as JSON,
`read_json` lets the JSONDecodeError escape as an exception instead of
returning an error outcome, against the claim that both failure cases
return an error outcome. -/
theorem c7_read_json_counterexample :
    read_json (.body "[1,") = .error .jsonDecodeError := by
  rfl

/-- C7 amended: `read_json` returns None when the storage client raises
a ClientError — the absent-object case among others — but propagates a
JSONDecodeError as an uncaught exception when the stored bytes do not
parse as JSON; parsable bytes are returned as the parsed value. -/
theorem c7_read_json_amended (s : String) :
    read_json .clientError = .ok none
    ∧ (jsonParse s = none → read_json (.body s) = .error .jsonDecodeError)
    ∧ (∀ j, jsonParse s = some j → read_json (.body s) = .ok (some j)) := by
  refine ⟨rfl, ?_, ?_⟩
  · intro h
    simp [read_json, h]
  · intro j h
    simp [read_json, h]

/-- Witness for C7 on a missing object, corrupt bytes, and valid
bytes. -/
theorem c7_read_json_amended_witness :
    read_json .clientError = .ok none
    ∧ read_json (.body "[1,") = .error .jsonDecodeError
    ∧ read_json (.body "null") = .ok (some .null) :=
  ⟨(c7_read_json_amended "[1,").1,
   (c7_read_json_amended "[1,").2.1 rfl,
   (c7_read_json_amended "null").2.2 .null rfl⟩

/-- C8: the handler table has exactly the 9 recognized agent_type tags,
and a record whose agent_type is missing or not among them makes
`process_agent_data` return False with zero storage-client calls,
whatever the storage backend would have done. -/
theorem c8_unknown_agent_type_rejected :
    AgentDataProcessor.agentHandlerKeys.length = 9
    ∧ ∀ (store : Except PyErr Bool) (data : AgentDataProcessor.AgentRecord),
        data.agent_type.all
            (fun t => !AgentDataProcessor.agentHandlerKeys.contains t)
          = true →
        AgentDataProcessor.process_agent_data store data = (false, 0) := by
  refine ⟨rfl, ?_⟩
  intro store data h
  cases hd : data.agent_type with
  | none => simp [AgentDataProcessor.process_agent_data, hd]
  | some t =>
    rw [hd] at h
    simp [Option.all] at h
    simp [AgentDataProcessor.process_agent_data, hd, h]

/-- Witness for C8 at agent_type "bogus". -/
theorem c8_unknown_agent_type_rejected_witness :
    AgentDataProcessor.process_agent_data (Except.ok true)
        { agent_type := some "bogus" } = (false, 0) :=
  c8_unknown_agent_type_rejected.2 _ _ (by decide)

/-- C9: the storage key `store_conversation` computes depends only on
the conversation_id and timestamp fields, so two calls agreeing on those
fields attempt writes at the same key and a re-delivered record
overwrites the same object. -/
theorem c9_conversation_key_determinism
    (putOk1 putOk2 : String → Bool) (d1 d2 : ConversationData)
    (hid : d1.conversation_id = d2.conversation_id)
    (hts : d1.timestamp = d2.timestamp) :
    (StorageClient.store_conversation putOk1 d1).map Prod.snd
      = (StorageClient.store_conversation putOk2 d2).map Prod.snd := by
  obtain ⟨cid1, ts1, rt1⟩ := d1
  obtain ⟨cid2, ts2, rt2⟩ := d2
  dsimp only at hid hts
  subst hid
  subst hts
  unfold StorageClient.store_conversation
  cases ts1 with
  | none => rfl
  | some ts =>
    dsimp only
    cases fromisoformat ts with
    | none => rfl
    | some t =>
      cases cid1 with
      | none => rfl
      | some cid => rfl

/-- Witness for C9: same conversation_id and timestamp, different
transcript and different backend outcome, identical computed key. -/
theorem c9_conversation_key_determinism_witness :
    (StorageClient.store_conversation (fun _ => true)
        { conversation_id := some "c1",
          timestamp := some "2024-03-05T10:30:00",
          raw_transcript := some "hello" }).map Prod.snd
      = (StorageClient.store_conversation (fun _ => false)
          { conversation_id := some "c1",
            timestamp := some "2024-03-05T10:30:00",
            raw_transcript := some "another transcript" }).map Prod.snd :=
  c9_conversation_key_determinism _ _ _ _ rfl rfl

/-- C10: with thread_id present and emails present but empty, the
field-presence validation passes, the guarded `emails[0]` access raises
IndexError inside `store_email_thread` before any write, and
`ingest_email_thread` converts the failure to False with no stored
object. -/
theorem c10_empty_emails_rejected (putOk : String → Bool)
    (data : EmailThreadData)
    (hid : data.thread_id.isSome = true) (he : data.emails = some []) :
    DataIngestionPipeline.ingest_email_thread putOk data = (false, [])
    ∧ StorageClient.store_email_thread putOk data = .error .indexError := by
  constructor
  · simp [DataIngestionPipeline.ingest_email_thread,
      DataIngestionPipeline.process_email_thread, hid, he,
      StorageClient.store_email_thread]
  · simp [StorageClient.store_email_thread, he]

/-- Witness for C10 at the concrete empty thread t1. -/
theorem c10_empty_emails_rejected_witness :
    DataIngestionPipeline.ingest_email_thread (fun _ => true)
        { thread_id := some "t1", emails := some [] } = (false, []) :=
  (c10_empty_emails_rejected (fun _ => true)
    { thread_id := some "t1", emails := some [] } rfl rfl).1
